import Mathlib

/-!
Verification of the Pulumi network-topology declaration in `infra/__main__.py`.

The Python program is a straight-line declaration: it builds eight AWS resource
descriptions (VPC, internet gateway, subnet, route table, route-table
association, security group, key pair, EC2 instance) and two output bindings,
reading one local file (the public key) and the current working directory.
We embed it as a pure function `run` from its ambient inputs (current working
directory, a file-system oracle, the provider's availability-zone listing) and
the engine-assigned identifiers to the sequence of declaration events and the
resulting record of resource descriptions, with the two fallible operations
(`get_availability_zones().names[0]` and `open(...).read()`) modelled as
`Option`-valued lookups that abort the run with an error.
-/

/-- Ambient inputs of the Python program: `os.getcwd()`, the file system
(mapping a path to the contents of the file there, `none` when the file is
absent so that `open` raises), and the provider's availability-zone names as
returned by `get_availability_zones().names`. -/
structure Inputs where
  currentDir : String
  fileSystem : String → Option String
  azNames : List String

/-- Identifiers and attributes assigned by the external engine/provider, not
computed by the program: each resource's `id` output and the instance's
`public_ip` output. -/
structure EngineIds where
  vpcId : String
  igwId : String
  subnetId : String
  routeTableId : String
  sgId : String
  instanceId : String
  instancePublicIp : String
deriving DecidableEq

/-- Embedding of `ec2.Vpc` as declared at lines 6-10 of the source. -/
structure Vpc where
  id : String
  cidr_block : String
  enable_dns_hostnames : Bool
  enable_dns_support : Bool
  tags : List (String × String)
deriving DecidableEq

/-- Embedding of `ec2.InternetGateway` as declared at lines 13-15. -/
structure InternetGateway where
  id : String
  vpc_id : String
  tags : List (String × String)
deriving DecidableEq

/-- Embedding of `ec2.Subnet` as declared at lines 18-23. -/
structure Subnet where
  id : String
  vpc_id : String
  cidr_block : String
  map_public_ip_on_launch : Bool
  availability_zone : String
  tags : List (String × String)
deriving DecidableEq

/-- Embedding of `ec2.RouteTableRouteArgs` (lines 28-31). -/
structure RouteTableRouteArgs where
  cidr_block : String
  gateway_id : String
deriving DecidableEq

/-- Embedding of `ec2.RouteTable` as declared at lines 26-32. -/
structure RouteTable where
  id : String
  vpc_id : String
  routes : List RouteTableRouteArgs
  tags : List (String × String)
deriving DecidableEq

/-- Embedding of `ec2.RouteTableAssociation` as declared at lines 35-37. -/
structure RouteTableAssociation where
  subnet_id : String
  route_table_id : String
deriving DecidableEq

/-- Embedding of `ec2.SecurityGroupIngressArgs` (lines 43-49). -/
structure SecurityGroupIngressArgs where
  description : String
  from_port : Nat
  to_port : Nat
  protocol : String
  cidr_blocks : List String
deriving DecidableEq

/-- Embedding of `ec2.SecurityGroupEgressArgs` (lines 50-55). -/
structure SecurityGroupEgressArgs where
  from_port : Nat
  to_port : Nat
  protocol : String
  cidr_blocks : List String
deriving DecidableEq

/-- Embedding of `ec2.SecurityGroup` as declared at lines 40-56. -/
structure SecurityGroup where
  id : String
  description : String
  vpc_id : String
  ingress : List SecurityGroupIngressArgs
  egress : List SecurityGroupEgressArgs
  tags : List (String × String)
deriving DecidableEq

/-- Embedding of `ec2.KeyPair` as declared at lines 62-64. -/
structure KeyPair where
  key_name : String
  public_key : String
deriving DecidableEq

/-- Embedding of `ec2.Instance` as declared at lines 68-74, with the
engine-assigned `public_ip` output used by the exports. -/
structure Instance where
  id : String
  instance_type : String
  ami : String
  subnet_id : String
  vpc_security_group_ids : List String
  key_name : String
  public_ip : String
  tags : List (String × String)
deriving DecidableEq

/-- The full record produced by a successful run: the eight resource
descriptions (the `instance` variable of the source is called `ec2_instance`
here because `instance` is a Lean keyword) and the exported output bindings
as an association list from output name to value. -/
structure Declaration where
  vpc : Vpc
  igw : InternetGateway
  public_subnet : Subnet
  route_table : RouteTable
  route_table_association : RouteTableAssociation
  ssh_security_group : SecurityGroup
  key_pair : KeyPair
  ec2_instance : Instance
  exports : List (String × String)
deriving DecidableEq

/-- Errors with which the straight-line declaration can abort: the
`IndexError` of `get_availability_zones().names[0]` on an empty listing, and
the `FileNotFoundError` (carrying the path, as Python's exception does) of
`open(os.path.join(current_dir, "id_rsa_pulumi.pub"))`. -/
inductive RunError where
  | azIndexOutOfRange : RunError
  | fileNotFound : String → RunError
deriving DecidableEq

/-- An event of the straight-line execution: registration of a resource (by
its Pulumi resource name) or an exported output binding (by its output name). -/
inductive Event where
  | resource : String → Event
  | outputBinding : String → Event
deriving DecidableEq

/-- Tests whether an event is a resource registration. -/
def Event.isResourceDecl : Event → Bool
  | Event.resource _ => true
  | Event.outputBinding _ => false

/-- Tests whether an event is an exported output binding. -/
def Event.isOutputDecl : Event → Bool
  | Event.resource _ => false
  | Event.outputBinding _ => true

/-- Whether a string starts with the POSIX path separator, as
`b.startswith(sep)` does inside Python's `os.path.join`. -/
def startsWithSlash (s : String) : Bool :=
  match s.data with
  | [] => false
  | c :: _ => c == '/'

/-- Whether a string ends with the POSIX path separator, as
`path.endswith(sep)` does inside Python's `os.path.join`. -/
def endsWithSlash (s : String) : Bool :=
  match s.data.getLast? with
  | none => false
  | some c => c == '/'

/-- Embedding of Python's `os.path.join(a, b)` for two components on POSIX:
if `b` is absolute it replaces `a`; otherwise the separator is inserted
unless `a` is empty or already ends with it. -/
def osPathJoin (a b : String) : String :=
  if startsWithSlash b then b
  else if a == "" || endsWithSlash a then a ++ b
  else a ++ ("/") ++ b

/-- The path of the public-key file the program reads:
`os.path.join(current_dir, "id_rsa_pulumi.pub")` (line 64). -/
def keyPath (dir : String) : String :=
  osPathJoin dir ("id_rsa_pulumi.pub")

/-- The private-key identity-file path embedded in the exported SSH command:
the piece `current_dir + "/id_rsa_pulumi"` of the concatenation at line 81. -/
def identityFilePath (dir : String) : String :=
  dir ++ ("/id_rsa_pulumi")

/-- The exported SSH command string:
`pulumi.Output.concat("ssh -i ", current_dir, "/id_rsa_pulumi ubuntu@", instance.public_ip)`
at line 81. -/
def sshCommandString (dir ip : String) : String :=
  "ssh -i " ++ dir ++ "/id_rsa_pulumi ubuntu@" ++ ip

/-- The record of resource descriptions and exports produced when both
fallible operations succeed, translated field by field from lines 6-81 of the
source: `az` is `get_availability_zones().names[0]` and `pubkey` is the
contents of the public-key file. -/
def successDecl (ids : EngineIds) (current_dir az pubkey : String) : Declaration :=
  let vpc : Vpc :=
    { id := ids.vpcId
      cidr_block := "10.0.0.0/16"
      enable_dns_hostnames := true
      enable_dns_support := true
      tags := [("Name", "my-vpc")] }
  let igw : InternetGateway :=
    { id := ids.igwId
      vpc_id := vpc.id
      tags := [("Name", "my-igw")] }
  let public_subnet : Subnet :=
    { id := ids.subnetId
      vpc_id := vpc.id
      cidr_block := "10.0.1.0/24"
      map_public_ip_on_launch := true
      availability_zone := az
      tags := [("Name", "public-subnet")] }
  let route_table : RouteTable :=
    { id := ids.routeTableId
      vpc_id := vpc.id
      routes := [{ cidr_block := "0.0.0.0/0", gateway_id := igw.id }]
      tags := [("Name", "public-route-table")] }
  let route_table_association : RouteTableAssociation :=
    { subnet_id := public_subnet.id
      route_table_id := route_table.id }
  let ssh_security_group : SecurityGroup :=
    { id := ids.sgId
      description := "Allow SSH access"
      vpc_id := vpc.id
      ingress := [{ description := "SSH from anywhere"
                    from_port := 22
                    to_port := 22
                    protocol := "tcp"
                    cidr_blocks := ["0.0.0.0/0"] }]
      egress := [{ from_port := 0
                   to_port := 0
                   protocol := "-1"
                   cidr_blocks := ["0.0.0.0/0"] }]
      tags := [("Name", "ssh-security-group")] }
  let key_pair : KeyPair :=
    { key_name := "my-key-pair"
      public_key := pubkey }
  let ec2_instance : Instance :=
    { id := ids.instanceId
      instance_type := "t2.micro"
      ami := "ami-060e277c0d4cce553"
      subnet_id := public_subnet.id
      vpc_security_group_ids := [ssh_security_group.id]
      key_name := key_pair.key_name
      public_ip := ids.instancePublicIp
      tags := [("Name", "my-instance")] }
  { vpc := vpc
    igw := igw
    public_subnet := public_subnet
    route_table := route_table
    route_table_association := route_table_association
    ssh_security_group := ssh_security_group
    key_pair := key_pair
    ec2_instance := ec2_instance
    exports := [("instance_public_ip", ec2_instance.public_ip),
                ("ssh_command", sshCommandString current_dir ec2_instance.public_ip)] }

/-- Events of a run that stops at the `IndexError` of
`get_availability_zones().names[0]`: only the VPC and the gateway were
registered before line 22 evaluates. -/
def eventsBeforeAz : List Event :=
  [Event.resource ("my-vpc"), Event.resource ("my-igw")]

/-- Events of a run that stops when `open` on the public-key file raises at
line 64: the six resources declared before it were registered, and neither
the key pair, the instance, nor any output binding follows. -/
def eventsBeforeKeyRead : List Event :=
  [Event.resource ("my-vpc"), Event.resource ("my-igw"),
   Event.resource ("public-subnet"), Event.resource ("public-route-table"),
   Event.resource ("public-route-table-association"),
   Event.resource ("ssh-security-group")]

/-- Events of a complete run: the eight resources in declaration order
followed by the two exported output bindings. -/
def successEvents : List Event :=
  [Event.resource ("my-vpc"), Event.resource ("my-igw"),
   Event.resource ("public-subnet"), Event.resource ("public-route-table"),
   Event.resource ("public-route-table-association"),
   Event.resource ("ssh-security-group"), Event.resource ("my-key-pair"),
   Event.resource ("my-instance"),
   Event.outputBinding ("instance_public_ip"),
   Event.outputBinding ("ssh_command")]

/-- The whole straight-line program as a function of the engine-assigned
identifiers and the ambient inputs: it returns the registration events in
order together with either the produced declaration record or the first
error, exactly mirroring the statement order of `__main__.py` (the
availability-zone lookup happens while declaring the subnet at line 22, the
file read while declaring the key pair at line 64; there is no handler, so
the first failure ends the run). -/
def run (ids : EngineIds) (inp : Inputs) : List Event × Except RunError Declaration :=
  match inp.azNames.head? with
  | none => (eventsBeforeAz, Except.error RunError.azIndexOutOfRange)
  | some az =>
    match inp.fileSystem (keyPath inp.currentDir) with
    | none =>
      (eventsBeforeKeyRead,
       Except.error (RunError.fileNotFound (keyPath inp.currentDir)))
    | some pubkey =>
      (successEvents, Except.ok (successDecl ids inp.currentDir az pubkey))

/-! ### CIDR arithmetic (for the containment of the subnet block in the VPC block) -/

/-- Interprets a list of decimal digit characters as a natural number,
`none` when the list is empty or holds a non-digit. -/
def digitsToNat (l : List Char) : Option Nat :=
  if l ≠ [] ∧ l.all (fun c => c.isDigit) then
    some (l.foldl (fun a c => a * 10 + (c.toNat - 48)) 0)
  else none

/-- Splits a character list on a separator character, never dropping empty
groups. -/
def splitOnChar (sep : Char) : List Char → List (List Char)
  | [] => [[]]
  | c :: cs =>
    let rest := splitOnChar sep cs
    if c == sep then [] :: rest
    else
      match rest with
      | [] => [[c]]
      | g :: gs => (c :: g) :: gs

/-- Parses an IPv4 CIDR string `a.b.c.d/p` into the 32-bit base address (as a
natural number, exact arithmetic) and the prefix length. -/
def parseCidr (s : String) : Option (Nat × Nat) :=
  match splitOnChar '/' s.data with
  | [addrPart, prePart] =>
    match splitOnChar '.' addrPart with
    | [a, b, c, d] =>
      match digitsToNat a, digitsToNat b, digitsToNat c, digitsToNat d, digitsToNat prePart with
      | some na, some nb, some nc, some nd, some p =>
        if na ≤ 255 ∧ nb ≤ 255 ∧ nc ≤ 255 ∧ nd ≤ 255 ∧ p ≤ 32 then
          some (((na * 256 + nb) * 256 + nc) * 256 + nd, p)
        else none
      | _, _, _, _, _ => none
    | _ => none
  | _ => none

/-- Whether the 32-bit address `ip` lies inside the CIDR block written in
`s`: the top `p` bits of `ip` coincide with those of the block's base
address. -/
def cidrContains (s : String) (ip : Nat) : Bool :=
  match parseCidr s with
  | some (base, p) => ip / 2 ^ (32 - p) == base / 2 ^ (32 - p)
  | none => false

/-! ### Shared helper lemmas and concrete instantiation data -/

/-- Concatenation of strings is associative. -/
theorem strAppendAssoc (a b c : String) : (a ++ b) ++ c = a ++ (b ++ c) := by
  cases a with | mk la =>
  cases b with | mk lb =>
  cases c with | mk lc =>
  exact congrArg String.mk (List.append_assoc la lb lc)

/-- When both the availability-zone lookup and the key-file read succeed, the
run registers all ten events and produces the declaration record. -/
theorem run_success (ids : EngineIds) (inp : Inputs) (az pubkey : String)
    (haz : inp.azNames.head? = some az)
    (hfs : inp.fileSystem (keyPath inp.currentDir) = some pubkey) :
    run ids inp = (successEvents, Except.ok (successDecl ids inp.currentDir az pubkey)) := by
  unfold run
  rw [haz, hfs]

/-- The `ssh_command` output of a finished run, `none` when the run aborted. -/
def sshExportOf (r : List Event × Except RunError Declaration) : Option String :=
  match r.2 with
  | Except.ok d => List.lookup ("ssh_command") d.exports
  | Except.error _ => none

/-- A concrete assignment of engine identifiers, for instantiations. -/
def ids0 : EngineIds :=
  { vpcId := "vpc-1", igwId := "igw-1", subnetId := "subnet-1",
    routeTableId := "rtb-1", sgId := "sg-1", instanceId := "i-1",
    instancePublicIp := "203.0.113.5" }

/-- A concrete healthy environment: the public-key file is present in the
working directory and two availability zones exist. -/
def inp0 : Inputs :=
  { currentDir := "/home/user/proj"
    fileSystem := fun p =>
      if p == "/home/user/proj/id_rsa_pulumi.pub" then some ("ssh-ed25519 AAAA") else none
    azNames := ["us-east-1a", "us-east-1b"] }

/-- A concrete environment whose file system lacks the public-key file. -/
def inpNoKey : Inputs :=
  { currentDir := "/home/user/proj"
    fileSystem := fun _ => none
    azNames := ["us-east-1a", "us-east-1b"] }

/-- An environment rooted at `/a` whose file system answers every path with
the same public-key text. -/
def inpA : Inputs :=
  { currentDir := "/a"
    fileSystem := fun _ => some ("PUBKEY")
    azNames := ["us-east-1a"] }

/-- The environment `inpA` with only the working directory changed. -/
def inpB : Inputs :=
  { currentDir := "/b"
    fileSystem := fun _ => some ("PUBKEY")
    azNames := ["us-east-1a"] }

/-- An environment agreeing with `inpA` on the working directory, on the
key-file contents at the derived key path and on the first availability-zone
name, but with a different file-system function and a longer zone listing. -/
def inpC : Inputs :=
  { currentDir := "/a"
    fileSystem := fun p => if p == "/a/id_rsa_pulumi.pub" then some ("PUBKEY") else none
    azNames := ["us-east-1a", "us-east-1b"] }

/-! ### Claims -/

/-- C1: on any successful run, the exported output named `ssh_command` is
exactly `"ssh -i " ++ current_dir ++ "/id_rsa_pulumi ubuntu@" ++ publicIp`,
for every working directory and every engine-assigned instance public IP. -/
theorem ssh_command_export_is_concat (ids : EngineIds) (inp : Inputs) (az pubkey : String)
    (haz : inp.azNames.head? = some az)
    (hfs : inp.fileSystem (keyPath inp.currentDir) = some pubkey) :
    (run ids inp).2 = Except.ok (successDecl ids inp.currentDir az pubkey) ∧
    List.lookup ("ssh_command") (successDecl ids inp.currentDir az pubkey).exports =
      some ("ssh -i " ++ inp.currentDir ++ "/id_rsa_pulumi ubuntu@" ++ ids.instancePublicIp) := by
  refine ⟨?_, rfl⟩
  rw [run_success ids inp az pubkey haz hfs]

/-- Instantiation of `ssh_command_export_is_concat` in the concrete healthy
environment. -/
theorem ssh_command_export_is_concat_witness :
    (run ids0 inp0).2 = Except.ok (successDecl ids0 inp0.currentDir ("us-east-1a") ("ssh-ed25519 AAAA")) ∧
    List.lookup ("ssh_command") (successDecl ids0 inp0.currentDir ("us-east-1a") ("ssh-ed25519 AAAA")).exports =
      some ("ssh -i " ++ inp0.currentDir ++ "/id_rsa_pulumi ubuntu@" ++ ids0.instancePublicIp) :=
  ssh_command_export_is_concat ids0 inp0 ("us-east-1a") ("ssh-ed25519 AAAA") (by decide) (by decide)

/-- C2: on any successful run, the key pair's `public_key` attribute equals,
character for character, the contents of the file `id_rsa_pulumi.pub` read at
the path derived from the current working directory, for every possible
contents of that file. -/
theorem key_pair_public_key_is_file_contents (ids : EngineIds) (inp : Inputs) (az pubkey : String)
    (haz : inp.azNames.head? = some az)
    (hfs : inp.fileSystem (keyPath inp.currentDir) = some pubkey) :
    (run ids inp).2 = Except.ok (successDecl ids inp.currentDir az pubkey) ∧
    (successDecl ids inp.currentDir az pubkey).key_pair.public_key = pubkey := by
  refine ⟨?_, rfl⟩
  rw [run_success ids inp az pubkey haz hfs]

/-- Instantiation of `key_pair_public_key_is_file_contents` in the concrete
healthy environment. -/
theorem key_pair_public_key_is_file_contents_witness :
    (run ids0 inp0).2 = Except.ok (successDecl ids0 inp0.currentDir ("us-east-1a") ("ssh-ed25519 AAAA")) ∧
    (successDecl ids0 inp0.currentDir ("us-east-1a") ("ssh-ed25519 AAAA")).key_pair.public_key =
      "ssh-ed25519 AAAA" :=
  key_pair_public_key_is_file_contents ids0 inp0 ("us-east-1a") ("ssh-ed25519 AAAA") (by decide) (by decide)

/-- C3: on any successful run, the route table has exactly one route, its
destination CIDR block is `0.0.0.0/0`, and its gateway identifier is the
declared internet gateway's identifier. -/
theorem route_table_single_default_route (ids : EngineIds) (inp : Inputs) (az pubkey : String)
    (haz : inp.azNames.head? = some az)
    (hfs : inp.fileSystem (keyPath inp.currentDir) = some pubkey) :
    (run ids inp).2 = Except.ok (successDecl ids inp.currentDir az pubkey) ∧
    (successDecl ids inp.currentDir az pubkey).route_table.routes =
      [{ cidr_block := "0.0.0.0/0",
         gateway_id := (successDecl ids inp.currentDir az pubkey).igw.id }] := by
  refine ⟨?_, rfl⟩
  rw [run_success ids inp az pubkey haz hfs]

/-- Instantiation of `route_table_single_default_route` in the concrete
healthy environment. -/
theorem route_table_single_default_route_witness :
    (run ids0 inp0).2 = Except.ok (successDecl ids0 inp0.currentDir ("us-east-1a") ("ssh-ed25519 AAAA")) ∧
    (successDecl ids0 inp0.currentDir ("us-east-1a") ("ssh-ed25519 AAAA")).route_table.routes =
      [{ cidr_block := "0.0.0.0/0",
         gateway_id := (successDecl ids0 inp0.currentDir ("us-east-1a") ("ssh-ed25519 AAAA")).igw.id }] :=
  route_table_single_default_route ids0 inp0 ("us-east-1a") ("ssh-ed25519 AAAA") (by decide) (by decide)

/-- C4: on any successful run, the security group's ingress permits TCP with
`from_port` 22 and `to_port` 22 from `0.0.0.0/0`, and its egress permits all
protocols (`-1`, ports 0) to `0.0.0.0/0`. -/
theorem security_group_ssh_ingress_open_egress (ids : EngineIds) (inp : Inputs) (az pubkey : String)
    (haz : inp.azNames.head? = some az)
    (hfs : inp.fileSystem (keyPath inp.currentDir) = some pubkey) :
    (run ids inp).2 = Except.ok (successDecl ids inp.currentDir az pubkey) ∧
    (successDecl ids inp.currentDir az pubkey).ssh_security_group.ingress =
      [{ description := "SSH from anywhere", from_port := 22, to_port := 22,
         protocol := "tcp", cidr_blocks := ["0.0.0.0/0"] }] ∧
    (successDecl ids inp.currentDir az pubkey).ssh_security_group.egress =
      [{ from_port := 0, to_port := 0, protocol := "-1",
         cidr_blocks := ["0.0.0.0/0"] }] := by
  refine ⟨?_, rfl, rfl⟩
  rw [run_success ids inp az pubkey haz hfs]

/-- Instantiation of `security_group_ssh_ingress_open_egress` in the concrete
healthy environment. -/
theorem security_group_ssh_ingress_open_egress_witness :
    (run ids0 inp0).2 = Except.ok (successDecl ids0 inp0.currentDir ("us-east-1a") ("ssh-ed25519 AAAA")) ∧
    (successDecl ids0 inp0.currentDir ("us-east-1a") ("ssh-ed25519 AAAA")).ssh_security_group.ingress =
      [{ description := "SSH from anywhere", from_port := 22, to_port := 22,
         protocol := "tcp", cidr_blocks := ["0.0.0.0/0"] }] ∧
    (successDecl ids0 inp0.currentDir ("us-east-1a") ("ssh-ed25519 AAAA")).ssh_security_group.egress =
      [{ from_port := 0, to_port := 0, protocol := "-1",
         cidr_blocks := ["0.0.0.0/0"] }] :=
  security_group_ssh_ingress_open_egress ids0 inp0 ("us-east-1a") ("ssh-ed25519 AAAA") (by decide) (by decide)

/-- C5: on any successful run, the program produces exactly two named output
bindings — `instance_public_ip` bound to the instance's public IP and
`ssh_command` bound to the composed SSH command string — and nothing else,
both in the exports list and in the event sequence. -/
theorem exactly_two_exported_outputs (ids : EngineIds) (inp : Inputs) (az pubkey : String)
    (haz : inp.azNames.head? = some az)
    (hfs : inp.fileSystem (keyPath inp.currentDir) = some pubkey) :
    (run ids inp).2 = Except.ok (successDecl ids inp.currentDir az pubkey) ∧
    (successDecl ids inp.currentDir az pubkey).exports =
      [("instance_public_ip", (successDecl ids inp.currentDir az pubkey).ec2_instance.public_ip),
       ("ssh_command",
        sshCommandString inp.currentDir
          (successDecl ids inp.currentDir az pubkey).ec2_instance.public_ip)] ∧
    List.filter Event.isOutputDecl successEvents =
      [Event.outputBinding ("instance_public_ip"), Event.outputBinding ("ssh_command")] := by
  refine ⟨?_, rfl, by decide⟩
  rw [run_success ids inp az pubkey haz hfs]

/-- Instantiation of `exactly_two_exported_outputs` in the concrete healthy
environment. -/
theorem exactly_two_exported_outputs_witness :
    (run ids0 inp0).2 = Except.ok (successDecl ids0 inp0.currentDir ("us-east-1a") ("ssh-ed25519 AAAA")) ∧
    (successDecl ids0 inp0.currentDir ("us-east-1a") ("ssh-ed25519 AAAA")).exports =
      [("instance_public_ip",
        (successDecl ids0 inp0.currentDir ("us-east-1a") ("ssh-ed25519 AAAA")).ec2_instance.public_ip),
       ("ssh_command",
        sshCommandString inp0.currentDir
          (successDecl ids0 inp0.currentDir ("us-east-1a") ("ssh-ed25519 AAAA")).ec2_instance.public_ip)] ∧
    List.filter Event.isOutputDecl successEvents =
      [Event.outputBinding ("instance_public_ip"), Event.outputBinding ("ssh_command")] :=
  exactly_two_exported_outputs ids0 inp0 ("us-east-1a") ("ssh-ed25519 AAAA") (by decide) (by decide)

/-- C6: on any successful run, exactly eight resources are registered, and
the declared relationships hold by attribute reference: the gateway's,
subnet's, route table's and security group's `vpc_id` equal the VPC's id; the
association's `subnet_id` and `route_table_id` equal the subnet's and route
table's ids; and the instance's `subnet_id`, security-group list and
`key_name` equal the subnet's id, the security group's id, and the key pair's
`key_name`. -/
theorem eight_resources_with_references (ids : EngineIds) (inp : Inputs) (az pubkey : String)
    (haz : inp.azNames.head? = some az)
    (hfs : inp.fileSystem (keyPath inp.currentDir) = some pubkey) :
    (run ids inp).2 = Except.ok (successDecl ids inp.currentDir az pubkey) ∧
    (List.filter Event.isResourceDecl successEvents).length = 8 ∧
    (successDecl ids inp.currentDir az pubkey).igw.vpc_id =
      (successDecl ids inp.currentDir az pubkey).vpc.id ∧
    (successDecl ids inp.currentDir az pubkey).public_subnet.vpc_id =
      (successDecl ids inp.currentDir az pubkey).vpc.id ∧
    (successDecl ids inp.currentDir az pubkey).route_table.vpc_id =
      (successDecl ids inp.currentDir az pubkey).vpc.id ∧
    (successDecl ids inp.currentDir az pubkey).ssh_security_group.vpc_id =
      (successDecl ids inp.currentDir az pubkey).vpc.id ∧
    (successDecl ids inp.currentDir az pubkey).route_table_association.subnet_id =
      (successDecl ids inp.currentDir az pubkey).public_subnet.id ∧
    (successDecl ids inp.currentDir az pubkey).route_table_association.route_table_id =
      (successDecl ids inp.currentDir az pubkey).route_table.id ∧
    (successDecl ids inp.currentDir az pubkey).ec2_instance.subnet_id =
      (successDecl ids inp.currentDir az pubkey).public_subnet.id ∧
    (successDecl ids inp.currentDir az pubkey).ec2_instance.vpc_security_group_ids =
      [(successDecl ids inp.currentDir az pubkey).ssh_security_group.id] ∧
    (successDecl ids inp.currentDir az pubkey).ec2_instance.key_name =
      (successDecl ids inp.currentDir az pubkey).key_pair.key_name := by
  refine ⟨?_, by decide, rfl, rfl, rfl, rfl, rfl, rfl, rfl, rfl, rfl⟩
  rw [run_success ids inp az pubkey haz hfs]

/-- Instantiation of `eight_resources_with_references` in the concrete
healthy environment. -/
theorem eight_resources_with_references_witness :
    (run ids0 inp0).2 = Except.ok (successDecl ids0 inp0.currentDir ("us-east-1a") ("ssh-ed25519 AAAA")) ∧
    (List.filter Event.isResourceDecl successEvents).length = 8 ∧
    (successDecl ids0 inp0.currentDir ("us-east-1a") ("ssh-ed25519 AAAA")).igw.vpc_id =
      (successDecl ids0 inp0.currentDir ("us-east-1a") ("ssh-ed25519 AAAA")).vpc.id ∧
    (successDecl ids0 inp0.currentDir ("us-east-1a") ("ssh-ed25519 AAAA")).public_subnet.vpc_id =
      (successDecl ids0 inp0.currentDir ("us-east-1a") ("ssh-ed25519 AAAA")).vpc.id ∧
    (successDecl ids0 inp0.currentDir ("us-east-1a") ("ssh-ed25519 AAAA")).route_table.vpc_id =
      (successDecl ids0 inp0.currentDir ("us-east-1a") ("ssh-ed25519 AAAA")).vpc.id ∧
    (successDecl ids0 inp0.currentDir ("us-east-1a") ("ssh-ed25519 AAAA")).ssh_security_group.vpc_id =
      (successDecl ids0 inp0.currentDir ("us-east-1a") ("ssh-ed25519 AAAA")).vpc.id ∧
    (successDecl ids0 inp0.currentDir ("us-east-1a") ("ssh-ed25519 AAAA")).route_table_association.subnet_id =
      (successDecl ids0 inp0.currentDir ("us-east-1a") ("ssh-ed25519 AAAA")).public_subnet.id ∧
    (successDecl ids0 inp0.currentDir ("us-east-1a") ("ssh-ed25519 AAAA")).route_table_association.route_table_id =
      (successDecl ids0 inp0.currentDir ("us-east-1a") ("ssh-ed25519 AAAA")).route_table.id ∧
    (successDecl ids0 inp0.currentDir ("us-east-1a") ("ssh-ed25519 AAAA")).ec2_instance.subnet_id =
      (successDecl ids0 inp0.currentDir ("us-east-1a") ("ssh-ed25519 AAAA")).public_subnet.id ∧
    (successDecl ids0 inp0.currentDir ("us-east-1a") ("ssh-ed25519 AAAA")).ec2_instance.vpc_security_group_ids =
      [(successDecl ids0 inp0.currentDir ("us-east-1a") ("ssh-ed25519 AAAA")).ssh_security_group.id] ∧
    (successDecl ids0 inp0.currentDir ("us-east-1a") ("ssh-ed25519 AAAA")).ec2_instance.key_name =
      (successDecl ids0 inp0.currentDir ("us-east-1a") ("ssh-ed25519 AAAA")).key_pair.key_name :=
  eight_resources_with_references ids0 inp0 ("us-east-1a") ("ssh-ed25519 AAAA") (by decide) (by decide)

/-- C7: when the public-key file is absent (the file-system lookup at the
derived key path answers `none`), the run stops with the file error carrying
that very path: the events are exactly the six resources declared before the
read — so neither the key pair nor the instance is registered — and no output
binding is produced. -/
theorem missing_key_file_aborts_run (ids : EngineIds) (inp : Inputs) (az : String)
    (haz : inp.azNames.head? = some az)
    (hfs : inp.fileSystem (keyPath inp.currentDir) = none) :
    run ids inp =
      (eventsBeforeKeyRead,
       Except.error (RunError.fileNotFound (keyPath inp.currentDir))) ∧
    List.filter Event.isOutputDecl eventsBeforeKeyRead = [] ∧
    Event.resource ("my-key-pair") ∉ eventsBeforeKeyRead ∧
    Event.resource ("my-instance") ∉ eventsBeforeKeyRead := by
  refine ⟨?_, by decide, by decide, by decide⟩
  unfold run
  rw [haz, hfs]

/-- Instantiation of `missing_key_file_aborts_run` in the concrete
environment whose file system has no key file. -/
theorem missing_key_file_aborts_run_witness :
    run ids0 inpNoKey =
      (eventsBeforeKeyRead,
       Except.error (RunError.fileNotFound (keyPath inpNoKey.currentDir))) ∧
    List.filter Event.isOutputDecl eventsBeforeKeyRead = [] ∧
    Event.resource ("my-key-pair") ∉ eventsBeforeKeyRead ∧
    Event.resource ("my-instance") ∉ eventsBeforeKeyRead :=
  missing_key_file_aborts_run ids0 inpNoKey ("us-east-1a") (by decide) (by decide)

/-- C8 counterexample: the current working directory is an environment input
beyond the public-key file and the provider credentials, and it changes the
result: `inpA` and `inpB` have literally the same file-system function (so
the same key-file contents everywhere) and the same availability-zone
listing, yet with the same engine identifiers the two runs export different
`ssh_command` values. -/
theorem cwd_changes_outputs_counterexample :
    inpA.fileSystem = inpB.fileSystem ∧ inpA.azNames = inpB.azNames ∧
    sshExportOf (run ids0 inpA) ≠ sshExportOf (run ids0 inpB) := by
  refine ⟨rfl, rfl, ?_⟩
  decide

/-- C8 amended: the run is a function of the engine-assigned identifiers, the
current working directory, the key-file contents at the derived key path, and
the first availability-zone name only — two runs agreeing on these agree on
all events, resource descriptions and outputs, however the rest of the file
system and of the zone listing differ. -/
theorem run_function_of_cwd_keyfile_az (ids : EngineIds) (inp1 inp2 : Inputs)
    (hcwd : inp1.currentDir = inp2.currentDir)
    (hkey : inp1.fileSystem (keyPath inp1.currentDir) =
      inp2.fileSystem (keyPath inp2.currentDir))
    (haz : inp1.azNames.head? = inp2.azNames.head?) :
    run ids inp1 = run ids inp2 := by
  obtain ⟨c1, f1, a1⟩ := inp1
  obtain ⟨c2, f2, a2⟩ := inp2
  simp only at hcwd hkey haz
  subst hcwd
  unfold run
  simp only
  rw [haz, hkey]

/-- Instantiation of `run_function_of_cwd_keyfile_az` at two concrete
environments differing in their file-system functions and zone listings but
agreeing on the three observed projections. -/
theorem run_function_of_cwd_keyfile_az_witness :
    run ids0 inpA = run ids0 inpC :=
  run_function_of_cwd_keyfile_az ids0 inpA inpC rfl (by decide) (by decide)

/-- C9: on any successful run, the subnet's CIDR block `10.0.1.0/24` is
contained in the VPC's CIDR block `10.0.0.0/16`: every 32-bit IPv4 address in
the former lies in the latter, by exact integer arithmetic. -/
theorem subnet_cidr_contained_in_vpc_cidr (ids : EngineIds) (inp : Inputs) (az pubkey : String)
    (haz : inp.azNames.head? = some az)
    (hfs : inp.fileSystem (keyPath inp.currentDir) = some pubkey) :
    (run ids inp).2 = Except.ok (successDecl ids inp.currentDir az pubkey) ∧
    ∀ ip : Nat, ip < 2 ^ 32 →
      cidrContains ((successDecl ids inp.currentDir az pubkey).public_subnet.cidr_block) ip = true →
      cidrContains ((successDecl ids inp.currentDir az pubkey).vpc.cidr_block) ip = true := by
  refine ⟨?_, ?_⟩
  · rw [run_success ids inp az pubkey haz hfs]
  · intro ip h32 hmem
    rw [show (successDecl ids inp.currentDir az pubkey).public_subnet.cidr_block =
      "10.0.1.0/24" from rfl] at hmem
    rw [show (successDecl ids inp.currentDir az pubkey).vpc.cidr_block =
      "10.0.0.0/16" from rfl]
    simp only [cidrContains,
      show parseCidr ("10.0.1.0/24") = some (167772416, 24) from by decide,
      show parseCidr ("10.0.0.0/16") = some (167772160, 16) from by decide] at hmem ⊢
    simp only [beq_iff_eq] at hmem ⊢
    norm_num at hmem ⊢
    omega

/-- Instantiation of `subnet_cidr_contained_in_vpc_cidr` at the address
10.0.1.1 in the concrete healthy environment. -/
theorem subnet_cidr_contained_in_vpc_cidr_witness :
    (run ids0 inp0).2 = Except.ok (successDecl ids0 inp0.currentDir ("us-east-1a") ("ssh-ed25519 AAAA")) ∧
    cidrContains ((successDecl ids0 inp0.currentDir ("us-east-1a") ("ssh-ed25519 AAAA")).vpc.cidr_block)
      167772417 = true :=
  ⟨(subnet_cidr_contained_in_vpc_cidr ids0 inp0 ("us-east-1a") ("ssh-ed25519 AAAA")
      (by decide) (by decide)).1,
   (subnet_cidr_contained_in_vpc_cidr ids0 inp0 ("us-east-1a") ("ssh-ed25519 AAAA")
      (by decide) (by decide)).2 167772417 (by decide) (by decide)⟩

/-- C10 counterexample: the claim's equation `(path read) = (identity path in
ssh_command) ++ ".pub"` fails at the working directory `/` (a value
`os.getcwd()` does return at the file-system root): the program reads
`/id_rsa_pulumi.pub` while the exported command's identity path is
`//id_rsa_pulumi`. -/
theorem key_path_at_root_counterexample :
    keyPath ("/") ≠ identityFilePath ("/") ++ (".pub") ∧
    keyPath ("/") = "/id_rsa_pulumi.pub" ∧
    identityFilePath ("/") ++ (".pub") = "//id_rsa_pulumi.pub" := by
  refine ⟨?_, ?_, ?_⟩ <;> decide

/-- C10 amended: for every working directory that is nonempty and does not
end with the path separator — which covers every `os.getcwd()` value except
the root `/` — the path of the file read for the key pair equals the
identity-file path embedded in the exported SSH command followed by `.pub`;
and the exported command decomposes around exactly that identity path. -/
theorem key_path_matches_ssh_identity_path (dir ip : String)
    (hne : dir ≠ "") (hsl : endsWithSlash dir = false) :
    keyPath dir = identityFilePath dir ++ (".pub") ∧
    sshCommandString dir ip = "ssh -i " ++ identityFilePath dir ++ (" ubuntu@" ++ ip) := by
  have h1 : (dir == "") = false := beq_eq_false_iff_ne.mpr hne
  constructor
  · simp only [keyPath, osPathJoin,
      show startsWithSlash ("id_rsa_pulumi.pub") = false from rfl,
      h1, hsl, Bool.or_self, if_false, Bool.false_eq_true, identityFilePath]
    rw [strAppendAssoc, strAppendAssoc]
    rfl
  · simp only [sshCommandString, identityFilePath]
    rw [show ("/id_rsa_pulumi ubuntu@" : String) = "/id_rsa_pulumi" ++ " ubuntu@" from rfl]
    simp only [strAppendAssoc]

/-- Instantiation of `key_path_matches_ssh_identity_path` at a concrete
working directory and instance IP. -/
theorem key_path_matches_ssh_identity_path_witness :
    keyPath ("/home/user/proj") = identityFilePath ("/home/user/proj") ++ (".pub") ∧
    sshCommandString ("/home/user/proj") ("203.0.113.5") =
      "ssh -i " ++ identityFilePath ("/home/user/proj") ++ (" ubuntu@" ++ "203.0.113.5") :=
  key_path_matches_ssh_identity_path ("/home/user/proj") ("203.0.113.5") (by decide) (by decide)
